import Mathlib

/-!
Verification of the JSON-extraction core of the Schema-Generator repository.

The Python sources `src/app.py` and `src/app2.py` are shallowly embedded
here.  Python strings are modelled as `List Char`; the values produced by
Python's `json` module are modelled by the inductive type `JVal`, where a
parsed JSON string is a list of code points (Python permits lone
surrogates from escape sequences, which `Char` cannot carry) and a JSON
number is kept as its matched lexeme.  Code that can raise is modelled in
an `Except` / `Option` channel; `json.loads` returning `.error` models a
raised `json.JSONDecodeError`.
-/

abbrev PyStr := List Char

/-- Opening curly brace character (kept as a named constant). -/
def braceOpen : Char := Char.ofNat 123

/-- Closing curly brace character (kept as a named constant). -/
def braceClose : Char := Char.ofNat 125

/-- Backtick character used by markdown code fences. -/
def backtick : Char := Char.ofNat 96

/-- Whitespace recognised by Python's `str.strip()` (ASCII range). -/
def isPySpace (c : Char) : Bool :=
  c = ' ' || c = '\t' || c = '\n' || c = '\r' || c = Char.ofNat 11 || c = Char.ofNat 12

/-- Model of Python `str.strip()`: drop leading and trailing whitespace. -/
def pyStrip (s : PyStr) : PyStr :=
  ((s.dropWhile isPySpace).reverse.dropWhile isPySpace).reverse

/-- Model of Python `str.split('\n')`: split at every newline, keeping empty pieces. -/
def splitNl : PyStr → List PyStr
  | [] => [[]]
  | c :: rest =>
    if c = '\n' then [] :: splitNl rest
    else
      match splitNl rest with
      | l :: ls => (c :: l) :: ls
      | [] => [[c]]

/-- Model of Python `'\n'.join(lines)`. -/
def joinNl (ls : List PyStr) : PyStr := List.intercalate ['\n'] ls

/-- Model of Python `str.find(c)`: index of the first occurrence (`none` is -1). -/
def pyFind (s : PyStr) (c : Char) : Option Nat := List.findIdx? (fun x => x = c) s

/-- Model of Python `str.rfind(c)`: index of the last occurrence (`none` is -1). -/
def pyRfind (s : PyStr) (c : Char) : Option Nat :=
  match List.findIdx? (fun x => x = c) s.reverse with
  | some i => some (s.length - 1 - i)
  | none => none

/-- Model of Python `str.startswith(c)` for a one-character argument. -/
def startsWithChar (s : PyStr) (c : Char) : Bool := s.head? = some c

/-- Model of Python `str.endswith(c)` for a one-character argument. -/
def endsWithChar (s : PyStr) (c : Char) : Bool := s.getLast? = some c

/-- Code points of a Lean string literal, used for parsed-string contents. -/
def strPts (s : String) : List Nat := s.toList.map Char.toNat

/-- Values returned by Python's `json.loads` (and the failure dictionaries the
extractor builds).  Numbers keep their matched lexeme; `NaN`, `Infinity` and
`-Infinity` (accepted by Python's decoder) get their own constructors. -/
inductive JVal where
  | jnull : JVal
  | jbool (b : Bool) : JVal
  | jnum (lex : PyStr) : JVal
  | jnan : JVal
  | jinf : JVal
  | jninf : JVal
  | jstr (cs : List Nat) : JVal
  | jarr (xs : List JVal) : JVal
  | jobj (kvs : List (List Nat × JVal)) : JVal

/-- Whitespace skipped by Python's JSON decoder between tokens
(exactly space, tab, newline, carriage return). -/
def isJsonWs (c : Char) : Bool := c = ' ' || c = '\t' || c = '\n' || c = '\r'

/-- Skip JSON inter-token whitespace. -/
def jsonSkipWs (s : PyStr) : PyStr := s.dropWhile isJsonWs

/-- Value of a hexadecimal digit, if the character is one. -/
def hexVal (c : Char) : Option Nat :=
  if '0' ≤ c ∧ c ≤ '9' then some (c.toNat - '0'.toNat)
  else if 'a' ≤ c ∧ c ≤ 'f' then some (c.toNat - 'a'.toNat + 10)
  else if 'A' ≤ c ∧ c ≤ 'F' then some (c.toNat - 'A'.toNat + 10)
  else none

/-- Single-character escapes accepted inside JSON strings. -/
def escChar (c : Char) : Option Nat :=
  if c = '"' then some 34
  else if c = '\\' then some 92
  else if c = '/' then some 47
  else if c = 'b' then some 8
  else if c = 'f' then some 12
  else if c = 'n' then some 10
  else if c = 'r' then some 13
  else if c = 't' then some 9
  else none

/-- Scan the body of a JSON string after the opening quote, as Python's
decoder does in strict mode: unescaped control characters are rejected,
`\uXXXX` needs four hex digits, and a high-surrogate escape immediately
followed by a low-surrogate escape is combined into one code point (lone
surrogates are kept as they are).  Returns the decoded code points and
the input remaining after the closing quote. -/
def scanStringF : Nat → PyStr → List Nat → Option (List Nat × PyStr)
  | 0, _, _ => none
  | _, [], _ => none
  | fuel + 1, c :: rest, acc =>
    if c = '"' then some (acc.reverse, rest)
    else if c = '\\' then
      match rest with
      | [] => none
      | e :: rest2 =>
        if e = 'u' then
          match rest2 with
          | a :: b :: c2 :: d :: rest3 =>
            match hexVal a, hexVal b, hexVal c2, hexVal d with
            | some ha, some hb, some hc, some hd =>
              let n := ha * 4096 + hb * 256 + hc * 16 + hd
              if 0xD800 ≤ n ∧ n ≤ 0xDBFF then
                match rest3 with
                | x :: y :: a2 :: b2 :: c3 :: d2 :: rest4 =>
                  if x = '\\' ∧ y = 'u' then
                    match hexVal a2, hexVal b2, hexVal c3, hexVal d2 with
                    | some ha2, some hb2, some hc2, some hd2 =>
                      let m := ha2 * 4096 + hb2 * 256 + hc2 * 16 + hd2
                      if 0xDC00 ≤ m ∧ m ≤ 0xDFFF then
                        scanStringF fuel rest4 ((0x10000 + (n - 0xD800) * 0x400 + (m - 0xDC00)) :: acc)
                      else
                        scanStringF fuel rest3 (n :: acc)
                    | _, _, _, _ => scanStringF fuel rest3 (n :: acc)
                  else
                    scanStringF fuel rest3 (n :: acc)
                | _ => scanStringF fuel rest3 (n :: acc)
              else
                scanStringF fuel rest3 (n :: acc)
            | _, _, _, _ => none
          | _ => none
        else
          match escChar e with
          | some p => scanStringF fuel rest2 (p :: acc)
          | none => none
    else if c.toNat < 0x20 then none
    else scanStringF fuel rest (c.toNat :: acc)

/-- Scan a JSON string body with enough fuel for the whole input
(every step of `scanStringF` consumes at least one character). -/
def scanString (s : PyStr) (acc : List Nat) : Option (List Nat × PyStr) :=
  scanStringF (s.length + 1) s acc

/-- Decimal digit test. -/
def isDigitCh (c : Char) : Bool := '0' ≤ c && c ≤ '9'

/-- Match the integer part of the JSON number grammar `0 | [1-9][0-9]*`. -/
def matchIntPart : PyStr → Option (PyStr × PyStr)
  | [] => none
  | c :: rest =>
    if c = '0' then some ([c], rest)
    else if '1' ≤ c ∧ c ≤ '9' then
      some (c :: rest.takeWhile isDigitCh, rest.dropWhile isDigitCh)
    else none

/-- Match a JSON number at the head of the input, per the decoder's regular
expression `(-?(?:0|[1-9]\d+|[1-9]))(\.\d+)?([eE][-+]?\d+)?` (greedy, so the
fraction and exponent groups are taken only when complete).  Returns the
matched lexeme and the rest of the input. -/
def matchNumber (s : PyStr) : Option (PyStr × PyStr) :=
  let negAndRest : PyStr × PyStr :=
    match s with
    | c :: rest => if c = '-' then (['-'], rest) else ([], s)
    | [] => ([], s)
  match matchIntPart negAndRest.2 with
  | none => none
  | some (ip, r1) =>
    let fracAndRest : PyStr × PyStr :=
      match r1 with
      | c :: r2 =>
        if c = '.' then
          let ds := r2.takeWhile isDigitCh
          if ds = [] then ([], r1) else (c :: ds, r2.dropWhile isDigitCh)
        else ([], r1)
      | [] => ([], r1)
    let r2 := fracAndRest.2
    let expAndRest : PyStr × PyStr :=
      match r2 with
      | c :: r3 =>
        if c = 'e' ∨ c = 'E' then
          let signAndRest : PyStr × PyStr :=
            match r3 with
            | d :: r4 => if d = '+' ∨ d = '-' then ([d], r4) else ([], r3)
            | [] => ([], r3)
          let ds := signAndRest.2.takeWhile isDigitCh
          if ds = [] then ([], r2)
          else (c :: (signAndRest.1 ++ ds), signAndRest.2.dropWhile isDigitCh)
        else ([], r2)
      | [] => ([], r2)
    some (negAndRest.1 ++ ip ++ fracAndRest.1 ++ expAndRest.1, expAndRest.2)

/-- Insert a key/value pair into an object the way Python's `dict` does:
an existing key keeps its position and gets the new value, a new key is
appended. -/
def objInsert (kvs : List (List Nat × JVal)) (k : List Nat) (v : JVal) :
    List (List Nat × JVal) :=
  match kvs with
  | [] => [(k, v)]
  | (k0, v0) :: rest => if k0 = k then (k0, v) :: rest else (k0, v0) :: objInsert rest k v

mutual

/-- Parse one JSON value at the head of the input, following the dispatch
of Python's scanner: string, object, array, the literals `null`, `true`,
`false`, a number, then `NaN`, `Infinity` and `-Infinity`.  The fuel
argument only bounds recursion depth; the entry point supplies more fuel
than any input can consume. -/
def parseValue : Nat → PyStr → Option (JVal × PyStr)
  | 0, _ => none
  | fuel + 1, s =>
    match s with
    | [] => none
    | c :: rest =>
      if c = '"' then
        match scanString rest [] with
        | some (cs, r) => some (.jstr cs, r)
        | none => none
      else if c = braceOpen then parseObjBody fuel rest
      else if c = '[' then parseArrBody fuel rest
      else if c = 'n' ∧ rest.take 3 = ['u', 'l', 'l'] then some (.jnull, rest.drop 3)
      else if c = 't' ∧ rest.take 3 = ['r', 'u', 'e'] then some (.jbool true, rest.drop 3)
      else if c = 'f' ∧ rest.take 4 = ['a', 'l', 's', 'e'] then some (.jbool false, rest.drop 4)
      else
        match matchNumber s with
        | some (lex, r) => some (.jnum lex, r)
        | none =>
          if c = 'N' ∧ rest.take 2 = ['a', 'N'] then some (.jnan, rest.drop 2)
          else if c = 'I' ∧ rest.take 7 = ['n', 'f', 'i', 'n', 'i', 't', 'y'] then
            some (.jinf, rest.drop 7)
          else if c = '-' ∧ rest.take 8 = ['I', 'n', 'f', 'i', 'n', 'i', 't', 'y'] then
            some (.jninf, rest.drop 8)
          else none

/-- Parse the inside of a JSON object after the opening brace: either an
immediate closing brace, or a sequence of string keys with values. -/
def parseObjBody : Nat → PyStr → Option (JVal × PyStr)
  | 0, _ => none
  | fuel + 1, s =>
    let s1 := jsonSkipWs s
    match s1 with
    | [] => none
    | c :: rest =>
      if c = braceClose then some (.jobj [], rest)
      else if c = '"' then parseMembers fuel rest []
      else none

/-- Parse object members, starting just after the opening quote of a key. -/
def parseMembers : Nat → PyStr → List (List Nat × JVal) → Option (JVal × PyStr)
  | 0, _, _ => none
  | fuel + 1, s, acc =>
    match scanString s [] with
    | none => none
    | some (key, r1) =>
      match jsonSkipWs r1 with
      | [] => none
      | c :: r2 =>
        if c = ':' then
          match parseValue fuel (jsonSkipWs r2) with
          | none => none
          | some (v, r3) =>
            let acc2 := objInsert acc key v
            match jsonSkipWs r3 with
            | [] => none
            | d :: r4 =>
              if d = braceClose then some (.jobj acc2, r4)
              else if d = ',' then
                match jsonSkipWs r4 with
                | [] => none
                | e :: r5 => if e = '"' then parseMembers fuel r5 acc2 else none
              else none
        else none

/-- Parse the inside of a JSON array after the opening bracket. -/
def parseArrBody : Nat → PyStr → Option (JVal × PyStr)
  | 0, _ => none
  | fuel + 1, s =>
    let s1 := jsonSkipWs s
    match s1 with
    | [] => none
    | c :: rest =>
      if c = ']' then some (.jarr [], rest)
      else parseItems fuel s1 []

/-- Parse array items, starting at the first character of an item. -/
def parseItems : Nat → PyStr → List JVal → Option (JVal × PyStr)
  | 0, _, _ => none
  | fuel + 1, s, acc =>
    match parseValue fuel s with
    | none => none
    | some (v, r1) =>
      match jsonSkipWs r1 with
      | [] => none
      | c :: r2 =>
        if c = ']' then some (.jarr (acc ++ [v]), r2)
        else if c = ',' then parseItems fuel (jsonSkipWs r2) (acc ++ [v])
        else none

end

/-- Model of Python `json.loads`, per the default decoder: skip whitespace,
parse a single value, skip whitespace, and require the input to be
exhausted.  An `.error ()` models a raised `json.JSONDecodeError`. -/
def jsonLoads (s : PyStr) : Except Unit JVal :=
  match parseValue (5 * s.length + 32) (jsonSkipWs s) with
  | some (v, r) => if jsonSkipWs r = [] then .ok v else .error ()
  | none => .error ()

/-- Search for the close of a markdown fence: the lazy `(.*?)\n```` ` part of
the extractor's fence pattern.  Returns the shortest content followed by a
newline and three backticks, with the input remaining after the match. -/
def fenceClose : PyStr → Option (PyStr × PyStr)
  | [] => none
  | c :: rest =>
    if c = '\n' ∧ rest.take 3 = [backtick, backtick, backtick] then
      some ([], rest.drop 3)
    else
      match fenceClose rest with
      | some (con, rem) => some (c :: con, rem)
      | none => none

/-- Try to match the fence pattern of the extractor's regular expression,
three backticks, an optional (greedy) `json` tag, a newline, lazy content,
then a newline and three closing backticks, at the very start of the input.
Returns the captured content and the input remaining after the match. -/
def tryFenceAt (s : PyStr) : Option (PyStr × PyStr) :=
  match s with
  | c1 :: c2 :: c3 :: rest =>
    if c1 = backtick ∧ c2 = backtick ∧ c3 = backtick then
      let afterOpen : Option PyStr :=
        if rest.take 5 = ['j', 's', 'o', 'n', '\n'] then some (rest.drop 5)
        else if rest.take 1 = ['\n'] then some (rest.drop 1)
        else none
      match afterOpen with
      | some r =>
        match fenceClose r with
        | some (con, rem) => some (con, rem)
        | none => none
      | none => none
    else none
  | _ => none

/-- Scan for all fence matches the way `re.findall` does: try the pattern at
each position from left to right, resume after every match and advance one
character after every failed attempt.  The fuel only bounds recursion; every
step consumes at least one character. -/
def findAllFencesF : Nat → PyStr → List PyStr
  | 0, _ => []
  | _, [] => []
  | fuel + 1, c :: rest =>
    match tryFenceAt (c :: rest) with
    | some (content, rem) => content :: findAllFencesF fuel rem
    | none => findAllFencesF fuel rest

/-- Model of `re.findall(r'```(?:json)?\n(.*?)\n```', cleaned, re.DOTALL)`. -/
def findAllFences (s : PyStr) : List PyStr := findAllFencesF (s.length + 1) s

/-- Model of `re.sub(r',\s*([}\]])', r'\1', s)`: every comma followed, after
optional whitespace, by a closing brace or bracket is replaced by just that
bracket; scanning resumes after each replacement and advances one character
after each non-match.  The fuel only bounds recursion. -/
def fixCommasF : Nat → PyStr → PyStr
  | 0, s => s
  | _, [] => []
  | fuel + 1, c :: rest =>
    if c = ',' then
      match rest.dropWhile isPySpace with
      | b :: tail =>
        if b = braceClose ∨ b = ']' then b :: fixCommasF fuel tail
        else c :: fixCommasF fuel rest
      | [] => c :: fixCommasF fuel rest
    else c :: fixCommasF fuel rest

/-- Trailing-comma repair used by extraction strategy 4. -/
def fixCommas (s : PyStr) : PyStr := fixCommasF (s.length + 1) s

/-- Exceptions of the embedded Python fragments.  `jsonDecodeError` is the
only exception the extractor's `try` blocks catch; the others arise in the
diagram builders and in `generate_schema`. -/
inductive PyErr where
  | jsonDecodeError : PyErr
  | keyError : PyErr
  | typeError : PyErr
  | attributeError : PyErr
deriving DecidableEq

/-- Strategy 2 loop of both extractors: parse each fenced block (stripped),
returning the first success. -/
def fenceScan : List PyStr → Option JVal
  | [] => none
  | b :: bs =>
    match jsonLoads (pyStrip b) with
    | .ok v => some v
    | .error _ => fenceScan bs

/-- Strategies 3 and 4 of both extractors: slice from the first opening to
the last closing brace when both exist, parse the slice, and on failure
repair trailing commas and parse again.  `none` means control falls
through (indices missing, or both parses failed). -/
def braceStage (cleaned : PyStr) : Option JVal :=
  match pyFind cleaned braceOpen, pyRfind cleaned braceClose with
  | some i, some j =>
    let potential := (cleaned.drop i).take (j + 1 - i)
    match jsonLoads potential with
    | .ok v => some v
    | .error _ =>
      match jsonLoads (fixCommas potential) with
      | .ok v => some v
      | .error _ => none
  | _, _ => none

/-- Strategy 5 loop of `src/app.py` (lines 104-117): accumulate lines from
the first line whose stripped form starts with an opening brace, attempt a
parse at every line whose stripped form ends with a closing brace, keep
accumulating after failed attempts, and return the first success. -/
def scanLines : List PyStr → List PyStr → Bool → Option JVal
  | [], _, _ => none
  | line :: rest, jsonLines, inJson =>
    if startsWithChar (pyStrip line) braceOpen || inJson then
      let jl := jsonLines ++ [line]
      if endsWithChar (pyStrip line) braceClose then
        match jsonLoads (joinNl jl) with
        | .ok v => some v
        | .error _ => scanLines rest jl true
      else scanLines rest jl true
    else scanLines rest jsonLines inJson

/-- Terminal `raw_response` of the `src/app.py` extractor:
`cleaned[:500] + "..." if len(cleaned) > 500 else cleaned`. -/
def rawRespA (cleaned : PyStr) : PyStr :=
  if 500 < cleaned.length then cleaned.take 500 ++ ("...").toList else cleaned

/-- Terminal `raw_response` of the `src/app2.py` extractor:
`cleaned[:500] + "..."`, unconditionally. -/
def rawRespB (cleaned : PyStr) : PyStr := cleaned.take 500 ++ ("...").toList

/-- Terminal failure dictionary returned by the `src/app.py` extractor. -/
def failObjA (cleaned : PyStr) : JVal :=
  .jobj [(strPts ("error"), .jstr (strPts ("Failed to extract valid JSON from response"))),
         (strPts ("raw_response"), .jstr ((rawRespA cleaned).map Char.toNat))]

/-- Terminal failure dictionary returned by the `src/app2.py` extractor. -/
def failObjB (cleaned : PyStr) : JVal :=
  .jobj [(strPts ("error"), .jstr (strPts ("Failed to extract valid JSON from response"))),
         (strPts ("raw_response"), .jstr ((rawRespB cleaned).map Char.toNat))]

/-- Embedding of `extract_json_from_response` from `src/app.py`
(lines 70-119): direct parse, fenced blocks, brace slice with comma repair,
line accumulation, then the terminal failure dictionary.  The `Except`
channel carries exceptions; every `json.loads` result is caught. -/
def extract_json_from_responseA (response : PyStr) : Except PyErr JVal :=
  match jsonLoads (pyStrip response) with
  | .ok v => .ok v
  | .error _ =>
    match fenceScan (findAllFences (pyStrip response)) with
    | some v => .ok v
    | none =>
      match braceStage (pyStrip response) with
      | some v => .ok v
      | none =>
        match scanLines (splitNl (pyStrip response)) [] false with
        | some v => .ok v
        | none => .ok (failObjA (pyStrip response))

/-- Embedding of `extract_json_from_response` from `src/app2.py`
(lines 230-257): the same first four strategies, no line-accumulation
stage, and a terminal failure dictionary that always appends the
truncation marker. -/
def extract_json_from_responseB (response : PyStr) : Except PyErr JVal :=
  match jsonLoads (pyStrip response) with
  | .ok v => .ok v
  | .error _ =>
    match fenceScan (findAllFences (pyStrip response)) with
    | some v => .ok v
    | none =>
      match braceStage (pyStrip response) with
      | some v => .ok v
      | none => .ok (failObjB (pyStrip response))

/-- Combined result of strategies 1-4, shared verbatim by both extractors. -/
def strats14 (cleaned : PyStr) : Option JVal :=
  match jsonLoads cleaned with
  | .ok v => some v
  | .error _ =>
    match fenceScan (findAllFences cleaned) with
    | some v => some v
    | none => braceStage cleaned

/-- Combined result of all strategies of the `src/app.py` extractor. -/
def stratsA (cleaned : PyStr) : Option JVal :=
  match strats14 cleaned with
  | some v => some v
  | none => scanLines (splitNl cleaned) [] false

/-- Key lookup in an embedded Python dictionary. -/
def lookupObj : List (List Nat × JVal) → List Nat → Option JVal
  | [], _ => none
  | (k, v) :: rest, key => if k = key then some v else lookupObj rest key

/-- Prefix test on code-point lists. -/
def startsWithSeq : List Nat → List Nat → Bool
  | [], _ => true
  | _ :: _, [] => false
  | p :: ps, c :: cs => p = c && startsWithSeq ps cs

/-- Substring test on code-point lists (Python `sub in s`). -/
def containsSub : List Nat → List Nat → Bool
  | pat, [] => startsWithSeq pat []
  | pat, c :: rest => startsWithSeq pat (c :: rest) || containsSub pat rest

/-- Model of Python's `key in value`: key membership for dictionaries,
element equality for lists, substring test for strings, and a `TypeError`
for the remaining JSON values. -/
def pyContains (v : JVal) (key : List Nat) : Except PyErr Bool :=
  match v with
  | .jobj kvs => .ok (lookupObj kvs key).isSome
  | .jarr xs =>
    .ok (xs.any (fun x => match x with | .jstr cs => decide (cs = key) | _ => false))
  | .jstr cs => .ok (containsSub key cs)
  | _ => .error .typeError

/-- Model of Python's `value[key] = x` item assignment. -/
def pySetItem (v : JVal) (key : List Nat) (x : JVal) : Except PyErr JVal :=
  match v with
  | .jobj kvs => .ok (.jobj (objInsert kvs key x))
  | _ => .error .typeError

/-- Display text of an embedded exception (the exact Python message text is
irrelevant to every property below; only which branch runs matters). -/
def errStrOf : PyErr → PyStr
  | .jsonDecodeError => ("JSONDecodeError").toList
  | .keyError => ("KeyError").toList
  | .typeError => ("TypeError").toList
  | .attributeError => ("AttributeError").toList

/-- Embedding of `generate_schema` from `src/app.py` (lines 121-134) with
the language-model call abstracted: `response` is the text the chain
returned.  On an `error` result the `raw_response` field is overwritten
with the first 1000 characters of the raw response; any exception is
caught and turned into a generation-failure dictionary. -/
def generate_schemaA (response : PyStr) : JVal :=
  let body : Except PyErr JVal :=
    match extract_json_from_responseA response with
    | .error e => .error e
    | .ok result =>
      match pyContains result (strPts ("error")) with
      | .error e => .error e
      | .ok true =>
        match pySetItem result (strPts ("raw_response"))
            (.jstr ((response.take 1000).map Char.toNat)) with
        | .error e => .error e
        | .ok r => .ok r
      | .ok false => .ok result
  match body with
  | .ok r => r
  | .error e =>
    .jobj [(strPts ("error"),
            .jstr (strPts ("Schema generation failed: ") ++ (errStrOf e).map Char.toNat)),
           (strPts ("raw_response"), .jstr ((errStrOf e).map Char.toNat))]

/-- Embedding of `generate_schema` from `src/app2.py` (lines 259-271), the
same post-processing applied to that file's extractor. -/
def generate_schemaB (response : PyStr) : JVal :=
  let body : Except PyErr JVal :=
    match extract_json_from_responseB response with
    | .error e => .error e
    | .ok result =>
      match pyContains result (strPts ("error")) with
      | .error e => .error e
      | .ok true =>
        match pySetItem result (strPts ("raw_response"))
            (.jstr ((response.take 1000).map Char.toNat)) with
        | .error e => .error e
        | .ok r => .ok r
      | .ok false => .ok result
  match body with
  | .ok r => r
  | .error e =>
    .jobj [(strPts ("error"),
            .jstr (strPts ("Schema generation failed: ") ++ (errStrOf e).map Char.toNat)),
           (strPts ("raw_response"), .jstr ((errStrOf e).map Char.toNat))]

/-- Python truthiness of an embedded JSON value (container emptiness,
boolean value, zero test on the number lexeme). -/
def pyTruthy : JVal → Bool
  | .jnull => false
  | .jbool b => b
  | .jnum lex =>
    !(((lex.takeWhile (fun c => !(c = 'e' || c = 'E'))).filter isDigitCh).all (fun c => c = '0'))
  | .jnan => true
  | .jinf => true
  | .jninf => true
  | .jstr cs => !cs.isEmpty
  | .jarr xs => !xs.isEmpty
  | .jobj kvs => !kvs.isEmpty

/-- Model of Python's `value.get(key, default)`: defaulting lookup on a
dictionary, `AttributeError` on anything else. -/
def pyGet (v : JVal) (key : List Nat) (dflt : JVal) : Except PyErr JVal :=
  match v with
  | .jobj kvs => .ok ((lookupObj kvs key).getD dflt)
  | _ => .error .attributeError

/-- Model of Python's `value[key]` subscript with a string key: `KeyError`
when a dictionary lacks the key, `TypeError` on non-dictionaries. -/
def pyIndexKey (v : JVal) (key : List Nat) : Except PyErr JVal :=
  match v with
  | .jobj kvs =>
    match lookupObj kvs key with
    | some x => .ok x
    | none => .error .keyError
  | _ => .error .typeError

/-- Model of Python iteration over an embedded JSON value: list elements,
string characters, dictionary keys; `TypeError` otherwise. -/
def pyIterate (v : JVal) : Except PyErr (List JVal) :=
  match v with
  | .jarr xs => .ok xs
  | .jstr cs => .ok (cs.map (fun n => .jstr [n]))
  | .jobj kvs => .ok (kvs.map (fun kv => JVal.jstr kv.1))
  | _ => .error .typeError

/-- String test used by the schema-type comparison. -/
def isJStr : JVal → Bool
  | .jstr _ => true
  | _ => false

/-- Dictionary test, Python's `isinstance(x, dict)`. -/
def isDict : JVal → Bool
  | .jobj _ => true
  | _ => false

/-- Container display used by `pyStrOf` below.  The fuel only bounds
nesting depth and is supplied far beyond any value arising here; display
text of containers decides no property below. -/
def pyReprFuel : Nat → JVal → PyStr
  | 0, _ => []
  | fuel + 1, v =>
    match v with
    | .jnull => ("None").toList
    | .jbool true => ("True").toList
    | .jbool false => ("False").toList
    | .jnum lex => lex
    | .jnan => ("nan").toList
    | .jinf => ("inf").toList
    | .jninf => ("-inf").toList
    | .jstr cs => '\'' :: (cs.map Char.ofNat) ++ ['\'']
    | .jarr xs =>
      '[' :: (List.intercalate (", ").toList (xs.map (pyReprFuel fuel))) ++ [']']
    | .jobj kvs =>
      braceOpen ::
        (List.intercalate (", ").toList
          (kvs.map (fun kv =>
            '\'' :: (kv.1.map Char.ofNat) ++ ('\'' :: ':' :: ' ' :: pyReprFuel fuel kv.2)))) ++
        [braceClose]

/-- Model of Python's `str()` conversion applied to an embedded JSON value. -/
def pyStrOf (v : JVal) : PyStr :=
  match v with
  | .jstr cs => cs.map Char.ofNat
  | .jbool true => ("True").toList
  | .jbool false => ("False").toList
  | .jnull => ("None").toList
  | .jnum lex => lex
  | .jnan => ("nan").toList
  | .jinf => ("inf").toList
  | .jninf => ("-inf").toList
  | .jarr xs => pyReprFuel 1000000 (.jarr xs)
  | .jobj kvs => pyReprFuel 1000000 (.jobj kvs)

/-- Relationship-type normalisation of `create_mermaid_diagram`
(src/app2.py line 309): `str(rel.get('type', '1:N')).upper().replace("-", ":")`. -/
def normalizeRelType (v : JVal) : PyStr :=
  ((pyStrOf v).map Char.toUpper).map (fun c => if c = '-' then ':' else c)

/-- Connector chosen by `create_mermaid_diagram` (src/app2.py lines 313-320)
from the normalised relationship type. -/
def connectorFor (t : PyStr) : PyStr :=
  if t = ("1:1").toList ∨ t = ("ONE_TO_ONE").toList then ("||--||").toList
  else if t = ("1:N").toList ∨ t = ("ONE_TO_MANY").toList then ("||--o\x7b").toList
  else if t = ("M:N").toList ∨ t = ("MANY_TO_MANY").toList then ("\x7do--o\x7b").toList
  else ("--").toList

/-- Mermaid text returned when the schema is missing, falsy or carries an
`error` key (src/app2.py lines 276-277). -/
def invalidSchemaDiagram : PyStr :=
  ("erDiagram\n    error((Error: Invalid Schema))").toList

/-- Mermaid text returned by the `except` branch of `create_mermaid_diagram`
(src/app2.py lines 326-331). -/
def failedDiagram (e : PyErr) : PyStr :=
  ("erDiagram\n    error((Diagram Generation Failed))\n    note\x7b\n        ").toList ++
    (errStrOf e).take 100 ++ ("\n    \x7d").toList

/-- Entity block built for one item by `create_mermaid_diagram`
(src/app2.py lines 288-296). -/
def mermaidEntity (item : JVal) : Except PyErr PyStr :=
  match pyGet item (strPts ("name")) (.jstr (strPts ("unnamed"))) with
  | .error e => .error e
  | .ok nameV =>
    match pyGet item (strPts ("fields")) (.jarr []) with
    | .error e => .error e
    | .ok fieldsV =>
      match pyIterate fieldsV with
      | .error e => .error e
      | .ok fields =>
        let fieldLines := fields.filterMap (fun field =>
          if isDict field then
            match pyGet field (strPts ("type")) (.jstr (strPts ("string"))),
                  pyGet field (strPts ("name")) (.jstr (strPts ("unknown"))) with
            | .ok tv, .ok nv =>
              some ((' ' :: ' ' :: ((pyStrOf tv).map Char.toUpper)) ++ (' ' :: pyStrOf nv))
            | _, _ => none
          else none)
        .ok (joinNl ((pyStrOf nameV ++ (' ' :: [braceOpen])) :: fieldLines ++ [[braceClose]]))

/-- Relationship lines built for one item by `create_mermaid_diagram`
(src/app2.py lines 299-322). -/
def mermaidRels (item : JVal) : Except PyErr (List PyStr) :=
  match pyGet item (strPts ("relationships")) (.jarr []) with
  | .error e => .error e
  | .ok relsV =>
    match pyIterate relsV with
    | .error e => .error e
    | .ok rels =>
      match pyGet item (strPts ("name")) (.jstr (strPts ("unknown"))) with
      | .error e => .error e
      | .ok srcV =>
        let mk : JVal → Except PyErr (Option PyStr) := fun rel =>
          if isDict rel then
            match pyGet rel (strPts ("related_to")) (.jstr (strPts ("unknown"))) with
            | .error e => .error e
            | .ok destV =>
              match pyGet rel (strPts ("type")) (.jstr (strPts ("1:N"))) with
              | .error e => .error e
              | .ok typeV =>
                match pyGet rel (strPts ("field")) (.jstr (strPts (""))) with
                | .error e => .error e
                | .ok fieldV =>
                  .ok (some (pyStrOf srcV ++ (' ' :: connectorFor (normalizeRelType typeV)) ++
                    (' ' :: pyStrOf destV) ++ (' ' :: ':' :: ' ' :: '"' :: pyStrOf fieldV) ++ ['"']))
          else .ok none
        let rec go : List JVal → Except PyErr (List PyStr)
          | [] => .ok []
          | r :: rs =>
            match mk r with
            | .error e => .error e
            | .ok o =>
              match go rs with
              | .error e => .error e
              | .ok ls => .ok (match o with | some l => l :: ls | none => ls)
        go rels

/-- Body of the `try` block of `create_mermaid_diagram`
(src/app2.py lines 279-324). -/
def mermaidBody (schema : JVal) : Except PyErr PyStr :=
  match pyGet schema (strPts ("schema_type")) .jnull with
  | .error e => .error e
  | .ok st =>
    let itemsKey := if pyStrOf st = ("relational").toList ∧ isJStr st
      then strPts ("tables") else strPts ("collections")
    match pyGet schema itemsKey (.jarr []) with
    | .error e => .error e
    | .ok itemsV =>
      match pyIterate itemsV with
      | .error e => .error e
      | .ok items =>
        let rec goEnt : List JVal → Except PyErr (List PyStr)
          | [] => .ok []
          | it :: its =>
            if isDict it then
              match mermaidEntity it with
              | .error e => .error e
              | .ok blk =>
                match goEnt its with
                | .error e => .error e
                | .ok bs => .ok (blk :: bs)
            else goEnt its
        let rec goRel : List JVal → Except PyErr (List PyStr)
          | [] => .ok []
          | it :: its =>
            if isDict it then
              match mermaidRels it with
              | .error e => .error e
              | .ok ls =>
                match goRel its with
                | .error e => .error e
                | .ok ms => .ok (ls ++ ms)
            else goRel its
        match goEnt items with
        | .error e => .error e
        | .ok entityBlocks =>
          match goRel items with
          | .error e => .error e
          | .ok relLines =>
            .ok (joinNl ((("erDiagram").toList :: entityBlocks) ++ relLines))

/-- Embedding of `create_mermaid_diagram` from `src/app2.py`
(lines 273-331): the falsy/error check runs before the `try` block (so it
can raise `AttributeError` on truthy non-dictionaries), and the whole body
is wrapped in a catch-all `except` that renders a failure diagram. -/
def create_mermaid_diagram (schema : JVal) : Except PyErr PyStr :=
  if !pyTruthy schema then .ok invalidSchemaDiagram
  else
    match pyGet schema (strPts ("error")) .jnull with
    | .error e => .error e
    | .ok errV =>
      if pyTruthy errV then .ok invalidSchemaDiagram
      else
        match mermaidBody schema with
        | .ok s => .ok s
        | .error e => .ok (failedDiagram e)

/-- Graphviz digraph as built by `create_er_diagram`: the node names and
edge endpoints are the values taken from the schema, labels are the
formatted strings. -/
structure ErDiagram where
  nodes : List (JVal × PyStr)
  edges : List (JVal × JVal × PyStr)

/-- Digraph holding no nodes or edges, as returned on an `error` schema. -/
def emptyDigraph : ErDiagram := ⟨[], []⟩

/-- Field list string built for one item by `create_er_diagram`
(src/app.py line 145): the newline join over the defaulted field list of
the item, each field rendered as its name, a colon and a space, and its
type, both read with raising subscripts, so a field that lacks `name` or
`type` raises `KeyError`. -/
def erFields (item : JVal) : Except PyErr PyStr :=
  match pyGet item (strPts ("fields")) (.jarr []) with
  | .error e => .error e
  | .ok fieldsV =>
    match pyIterate fieldsV with
    | .error e => .error e
    | .ok fields =>
      let rec go : List JVal → Except PyErr (List PyStr)
        | [] => .ok []
        | f :: fs =>
          match pyIndexKey f (strPts ("name")) with
          | .error e => .error e
          | .ok nv =>
            match pyIndexKey f (strPts ("type")) with
            | .error e => .error e
            | .ok tv =>
              match go fs with
              | .error e => .error e
              | .ok ls => .ok ((pyStrOf nv ++ (':' :: ' ' :: pyStrOf tv)) :: ls)
      match go fields with
      | .error e => .error e
      | .ok ls => .ok (joinNl ls)

/-- Node-construction loop of `create_er_diagram` (src/app.py lines
144-146): the field list is built first, then the item is subscripted with
`name`, which raises `KeyError` when the key is missing. -/
def erNodes : List JVal → Except PyErr (List (JVal × PyStr))
  | [] => .ok []
  | item :: items =>
    match erFields item with
    | .error e => .error e
    | .ok fields =>
      match pyIndexKey item (strPts ("name")) with
      | .error e => .error e
      | .ok nameV =>
        match erNodes items with
        | .error e => .error e
        | .ok ns => .ok ((nameV, pyStrOf nameV ++ ('\n' :: fields)) :: ns)

/-- Edge lines of `create_er_diagram` for one item (src/app.py lines
148-154). -/
def erEdgesOf (item : JVal) : Except PyErr (List (JVal × JVal × PyStr)) :=
  match pyGet item (strPts ("relationships")) (.jarr []) with
  | .error e => .error e
  | .ok relsV =>
    match pyIterate relsV with
    | .error e => .error e
    | .ok rels =>
      let rec go : List JVal → Except PyErr (List (JVal × JVal × PyStr))
        | [] => .ok []
        | rel :: rs =>
          match pyIndexKey item (strPts ("name")) with
          | .error e => .error e
          | .ok nameV =>
            match pyIndexKey rel (strPts ("related_to")) with
            | .error e => .error e
            | .ok destV =>
              match pyIndexKey rel (strPts ("type")) with
              | .error e => .error e
              | .ok typeV =>
                match pyIndexKey rel (strPts ("field")) with
                | .error e => .error e
                | .ok fieldV =>
                  match go rs with
                  | .error e => .error e
                  | .ok es =>
                    .ok ((nameV, destV, pyStrOf typeV ++ ('\n' :: pyStrOf fieldV)) :: es)
      go rels

/-- Edge-construction loop of `create_er_diagram` over all items. -/
def erEdges : List JVal → Except PyErr (List (JVal × JVal × PyStr))
  | [] => .ok []
  | item :: items =>
    match erEdgesOf item with
    | .error e => .error e
    | .ok es =>
      match erEdges items with
      | .error e => .error e
      | .ok ms => .ok (es ++ ms)

/-- Embedding of `create_er_diagram` from `src/app.py` (lines 136-156).
There is no exception handling in this function: a `KeyError` or
`TypeError` raised while building nodes or edges propagates to the
caller. -/
def create_er_diagram (schema : JVal) : Except PyErr ErDiagram :=
  match pyGet schema (strPts ("error")) .jnull with
  | .error e => .error e
  | .ok errV =>
    if pyTruthy errV then .ok emptyDigraph
    else
      match pyGet schema (strPts ("schema_type")) .jnull with
      | .error e => .error e
      | .ok st =>
        let itemsKey := if pyStrOf st = ("relational").toList ∧ isJStr st
          then strPts ("tables") else strPts ("collections")
        match pyGet schema itemsKey (.jarr []) with
        | .error e => .error e
        | .ok itemsV =>
          match pyIterate itemsV with
          | .error e => .error e
          | .ok items =>
            match erNodes items with
            | .error e => .error e
            | .ok ns =>
              match erEdges items with
              | .error e => .error e
              | .ok es => .ok ⟨ns, es⟩

/-- Shape of the terminal failure dictionary: exactly the keys `error` and
`raw_response`, both holding strings. -/
def failShape : JVal → Bool
  | .jobj [(k1, .jstr _), (k2, .jstr _)] =>
    k1 = strPts ("error") && k2 = strPts ("raw_response")
  | _ => false

/-- Projection reading the `raw_response` string out of an extraction
result, used to compare results of the two extractors. -/
def rawRespOf (r : Except PyErr JVal) : Option (List Nat) :=
  match r with
  | .ok (.jobj kvs) =>
    match lookupObj kvs (strPts ("raw_response")) with
    | some (.jstr cs) => some cs
    | _ => none
  | _ => none

/-- Tokens the connector chain of `create_mermaid_diagram` recognises. -/
def recognizedRelType (t : PyStr) : Bool :=
  decide (t = ("1:1").toList) || decide (t = ("ONE_TO_ONE").toList) ||
  decide (t = ("1:N").toList) || decide (t = ("ONE_TO_MANY").toList) ||
  decide (t = ("M:N").toList) || decide (t = ("MANY_TO_MANY").toList)

/-- Unfolding lemma for the `src/app.py` extractor: its result is the first
success of the strategy cascade, or the terminal failure dictionary. -/
theorem extractA_eq (s : PyStr) :
    extract_json_from_responseA s =
      .ok ((stratsA (pyStrip s)).getD (failObjA (pyStrip s))) := by
  unfold extract_json_from_responseA stratsA strats14
  cases h1 : jsonLoads (pyStrip s) with
  | ok v => simp
  | error e =>
    cases h2 : fenceScan (findAllFences (pyStrip s)) with
    | some v => simp
    | none =>
      cases h3 : braceStage (pyStrip s) with
      | some v => simp
      | none =>
        cases h4 : scanLines (splitNl (pyStrip s)) [] false with
        | some v => simp
        | none => simp

/-- Unfolding lemma for the `src/app2.py` extractor: its result is the first
success of strategies 1-4, or the terminal failure dictionary. -/
theorem extractB_eq (s : PyStr) :
    extract_json_from_responseB s =
      .ok ((strats14 (pyStrip s)).getD (failObjB (pyStrip s))) := by
  unfold extract_json_from_responseB strats14
  cases h1 : jsonLoads (pyStrip s) with
  | ok v => simp
  | error e =>
    cases h2 : fenceScan (findAllFences (pyStrip s)) with
    | some v => simp
    | none =>
      cases h3 : braceStage (pyStrip s) with
      | some v => simp
      | none => simp

/-- C1: for every input string — including the empty string, pure
whitespace, and arbitrarily large text — both embedded copies of
`extract_json_from_response` return a value through the ordinary return
path of the exception channel: no `json.JSONDecodeError` (the only
exception arising in their bodies) escapes, so every failure mode comes
back as data. -/
theorem extraction_never_raises (s : PyStr) :
    (∃ v, extract_json_from_responseA s = .ok v) ∧
      (∃ w, extract_json_from_responseB s = .ok w) :=
  ⟨⟨_, extractA_eq s⟩, ⟨_, extractB_eq s⟩⟩

/-- C2 (amended): every result is either the value found by one of the
strategies — a value of any JSON type, not necessarily a mapping — or,
exactly when every strategy fails, the failure dictionary whose keys are
`error` and `raw_response`. -/
theorem extraction_result_shape (s : PyStr) :
    (∃ v, extract_json_from_responseA s = .ok v ∧
       (stratsA (pyStrip s) = some v ∨
         (stratsA (pyStrip s) = none ∧ v = failObjA (pyStrip s) ∧ failShape v = true))) ∧
    (∃ w, extract_json_from_responseB s = .ok w ∧
       (strats14 (pyStrip s) = some w ∨
         (strats14 (pyStrip s) = none ∧ w = failObjB (pyStrip s) ∧ failShape w = true))) := by
  constructor
  · cases h : stratsA (pyStrip s) with
    | some v => exact ⟨v, by rw [extractA_eq, h]; rfl, Or.inl rfl⟩
    | none => exact ⟨failObjA (pyStrip s), by rw [extractA_eq, h]; rfl,
        Or.inr ⟨rfl, rfl, rfl⟩⟩
  · cases h : strats14 (pyStrip s) with
    | some w => exact ⟨w, by rw [extractB_eq, h]; rfl, Or.inl rfl⟩
    | none => exact ⟨failObjB (pyStrip s), by rw [extractB_eq, h]; rfl,
        Or.inr ⟨rfl, rfl, rfl⟩⟩

/-- C2 (counterexample): on input `[1]` the direct-parse strategy succeeds
and the extractor returns the parsed list — not a mapping and without any
`error` key — so the claimed every-result-is-a-mapping property is false. -/
theorem extraction_result_not_always_mapping :
    jsonLoads (pyStrip (("[1]").toList)) = .ok (.jarr [.jnum ['1']]) ∧
    extract_json_from_responseA (("[1]").toList) = .ok (.jarr [.jnum ['1']]) ∧
    extract_json_from_responseB (("[1]").toList) = .ok (.jarr [.jnum ['1']]) ∧
    isDict (.jarr [.jnum ['1']]) = false :=
  ⟨rfl, rfl, rfl, rfl⟩

/-- C3: whenever the stripped input parses as JSON, both extractors return
exactly that parse, untouched by any later strategy. -/
theorem direct_parse_identity (s : PyStr) (v : JVal)
    (h : jsonLoads (pyStrip s) = .ok v) :
    extract_json_from_responseA s = .ok v ∧
      extract_json_from_responseB s = .ok v := by
  constructor
  · unfold extract_json_from_responseA
    rw [h]
  · unfold extract_json_from_responseB
    rw [h]

/-- C3 (witness): the identity property at the concrete document from the
specification. -/
theorem direct_parse_identity_witness :
    jsonLoads (pyStrip (("\x7b\"schema_type\":\"relational\",\"tables\":[]\x7d").toList)) =
      .ok (.jobj [(strPts ("schema_type"), .jstr (strPts ("relational"))),
                  (strPts ("tables"), .jarr [])]) ∧
    extract_json_from_responseA (("\x7b\"schema_type\":\"relational\",\"tables\":[]\x7d").toList) =
      .ok (.jobj [(strPts ("schema_type"), .jstr (strPts ("relational"))),
                  (strPts ("tables"), .jarr [])]) ∧
    extract_json_from_responseB (("\x7b\"schema_type\":\"relational\",\"tables\":[]\x7d").toList) =
      .ok (.jobj [(strPts ("schema_type"), .jstr (strPts ("relational"))),
                  (strPts ("tables"), .jarr [])]) :=
  ⟨rfl,
   (direct_parse_identity (("\x7b\"schema_type\":\"relational\",\"tables\":[]\x7d").toList) _ rfl).1,
   (direct_parse_identity (("\x7b\"schema_type\":\"relational\",\"tables\":[]\x7d").toList) _ rfl).2⟩

/-- C5: when the direct parse fails and the fence scan — which collects the
fenced regions in document order and returns the parse of the first region
whose stripped content parses — succeeds, both extractors return that
value. -/
theorem fenced_block_extraction (s : PyStr) (v : JVal)
    (h1 : jsonLoads (pyStrip s) = .error ())
    (h2 : fenceScan (findAllFences (pyStrip s)) = some v) :
    extract_json_from_responseA s = .ok v ∧
      extract_json_from_responseB s = .ok v := by
  constructor
  · unfold extract_json_from_responseA
    rw [h1, h2]
  · unfold extract_json_from_responseB
    rw [h1, h2]

/-- C5 (witness): the fenced-block property at the concrete response from
the specification, prose around a `json`-tagged fence. -/
theorem fenced_block_extraction_witness :
    jsonLoads (pyStrip (("Here is the schema:\n```json\n\x7b\"schema_type\":\"nosql\",\"collections\":[]\x7d\n```\nEnjoy!").toList)) = .error () ∧
    fenceScan (findAllFences (pyStrip (("Here is the schema:\n```json\n\x7b\"schema_type\":\"nosql\",\"collections\":[]\x7d\n```\nEnjoy!").toList))) =
      some (.jobj [(strPts ("schema_type"), .jstr (strPts ("nosql"))),
                   (strPts ("collections"), .jarr [])]) ∧
    extract_json_from_responseA (("Here is the schema:\n```json\n\x7b\"schema_type\":\"nosql\",\"collections\":[]\x7d\n```\nEnjoy!").toList) =
      .ok (.jobj [(strPts ("schema_type"), .jstr (strPts ("nosql"))),
                  (strPts ("collections"), .jarr [])]) ∧
    extract_json_from_responseB (("Here is the schema:\n```json\n\x7b\"schema_type\":\"nosql\",\"collections\":[]\x7d\n```\nEnjoy!").toList) =
      .ok (.jobj [(strPts ("schema_type"), .jstr (strPts ("nosql"))),
                  (strPts ("collections"), .jarr [])]) :=
  ⟨rfl, rfl,
   (fenced_block_extraction
     (("Here is the schema:\n```json\n\x7b\"schema_type\":\"nosql\",\"collections\":[]\x7d\n```\nEnjoy!").toList)
     (.jobj [(strPts ("schema_type"), .jstr (strPts ("nosql"))),
             (strPts ("collections"), .jarr [])]) rfl rfl).1,
   (fenced_block_extraction
     (("Here is the schema:\n```json\n\x7b\"schema_type\":\"nosql\",\"collections\":[]\x7d\n```\nEnjoy!").toList)
     (.jobj [(strPts ("schema_type"), .jstr (strPts ("nosql"))),
             (strPts ("collections"), .jarr [])]) rfl rfl).2⟩

/-- C6: when the first two strategies fail and the text has a first opening
brace before its last closing brace, both extractors parse the inclusive
slice between them; if that parse fails, every comma followed (up to
whitespace) by a closing brace or bracket is removed from the slice and the
parse is retried. -/
theorem brace_slice_and_comma_repair (s : PyStr) (i j : Nat)
    (h1 : jsonLoads (pyStrip s) = .error ())
    (h2 : fenceScan (findAllFences (pyStrip s)) = none)
    (h3 : pyFind (pyStrip s) braceOpen = some i)
    (h4 : pyRfind (pyStrip s) braceClose = some j)
    (_h5 : i < j) :
    (∀ v, jsonLoads (((pyStrip s).drop i).take (j + 1 - i)) = .ok v →
       extract_json_from_responseA s = .ok v ∧
         extract_json_from_responseB s = .ok v) ∧
    (∀ w, jsonLoads (((pyStrip s).drop i).take (j + 1 - i)) = .error () →
       jsonLoads (fixCommas (((pyStrip s).drop i).take (j + 1 - i))) = .ok w →
         extract_json_from_responseA s = .ok w ∧
           extract_json_from_responseB s = .ok w) := by
  constructor
  · intro v hv
    have hb : braceStage (pyStrip s) = some v := by
      unfold braceStage
      rw [h3, h4]
      simp only [hv]
    constructor
    · unfold extract_json_from_responseA
      rw [h1, h2, hb]
    · unfold extract_json_from_responseB
      rw [h1, h2, hb]
  · intro w hw1 hw2
    have hb : braceStage (pyStrip s) = some w := by
      unfold braceStage
      rw [h3, h4]
      simp only [hw1, hw2]
    constructor
    · unfold extract_json_from_responseA
      rw [h1, h2, hb]
    · unfold extract_json_from_responseB
      rw [h1, h2, hb]

/-- C6 (witness): the property at the two concrete inputs from the
specification, prose around a well-formed object (slice parses directly)
and an object with trailing commas (repair needed). -/
theorem brace_slice_and_comma_repair_witness :
    (extract_json_from_responseA (("Sure! \x7b\"x\":1\x7d Hope that helps.").toList) =
       .ok (.jobj [(strPts ("x"), .jnum ['1'])]) ∧
     extract_json_from_responseB (("Sure! \x7b\"x\":1\x7d Hope that helps.").toList) =
       .ok (.jobj [(strPts ("x"), .jnum ['1'])])) ∧
    (extract_json_from_responseA (("\x7b\"a\": [1,2,],\x7d").toList) =
       .ok (.jobj [(strPts ("a"), .jarr [.jnum ['1'], .jnum ['2']])]) ∧
     extract_json_from_responseB (("\x7b\"a\": [1,2,],\x7d").toList) =
       .ok (.jobj [(strPts ("a"), .jarr [.jnum ['1'], .jnum ['2']])])) :=
  ⟨(brace_slice_and_comma_repair (("Sure! \x7b\"x\":1\x7d Hope that helps.").toList)
      6 12 rfl rfl rfl rfl (by decide)).1
      (.jobj [(strPts ("x"), .jnum ['1'])]) rfl,
   (brace_slice_and_comma_repair (("\x7b\"a\": [1,2,],\x7d").toList)
      0 13 rfl rfl rfl rfl (by decide)).2
      (.jobj [(strPts ("a"), .jarr [.jnum ['1'], .jnum ['2']])]) rfl rfl⟩

/-- C7 (amended): when strategies 1-4 fail, the `src/app.py` extractor
returns the result of the line-accumulation scan — which starts
accumulating at the first line whose stripped form opens a brace, attempts
a parse at every accumulated line whose stripped form closes one, and
keeps accumulating after failed attempts until the lines are exhausted —
falling back to the terminal failure dictionary, while the `src/app2.py`
extractor has no such stage and returns its terminal failure dictionary
directly.  The last conjunct states the continue-after-failure step: a
failed parse attempt at a closing line extends the accumulation and the
scan goes on. -/
theorem line_accumulation_stage (s : PyStr)
    (h1 : jsonLoads (pyStrip s) = .error ())
    (h2 : fenceScan (findAllFences (pyStrip s)) = none)
    (h3 : braceStage (pyStrip s) = none) :
    (extract_json_from_responseA s =
       match scanLines (splitNl (pyStrip s)) [] false with
       | some v => .ok v
       | none => .ok (failObjA (pyStrip s))) ∧
    extract_json_from_responseB s = .ok (failObjB (pyStrip s)) ∧
    (∀ line rest acc, endsWithChar (pyStrip line) braceClose = true →
       jsonLoads (joinNl (acc ++ [line])) = .error () →
       scanLines (line :: rest) acc true = scanLines rest (acc ++ [line]) true) := by
  refine ⟨?_, ?_, ?_⟩
  · unfold extract_json_from_responseA
    rw [h1, h2, h3]
  · unfold extract_json_from_responseB
    rw [h1, h2, h3]
  · intro line rest acc hEnd hFail
    simp [scanLines, hEnd, hFail]

/-- C7 (witness): a response whose early closing line ends only a nested
sub-object; the `src/app.py` extractor recovers the outer object on a
later closing line, the `src/app2.py` extractor returns its failure
dictionary. -/
theorem line_accumulation_stage_witness :
    extract_json_from_responseA (("note\n\x7b\"a\":\n\x7b\"b\": 1\x7d\n\x7d\noops \x7d end").toList) =
      .ok (.jobj [(strPts ("a"), .jobj [(strPts ("b"), .jnum ['1'])])]) ∧
    extract_json_from_responseB (("note\n\x7b\"a\":\n\x7b\"b\": 1\x7d\n\x7d\noops \x7d end").toList) =
      .ok (failObjB (("note\n\x7b\"a\":\n\x7b\"b\": 1\x7d\n\x7d\noops \x7d end").toList)) :=
  ⟨((line_accumulation_stage
      (("note\n\x7b\"a\":\n\x7b\"b\": 1\x7d\n\x7d\noops \x7d end").toList)
      rfl rfl rfl).1).trans rfl,
   (line_accumulation_stage
      (("note\n\x7b\"a\":\n\x7b\"b\": 1\x7d\n\x7d\noops \x7d end").toList)
      rfl rfl rfl).2.1⟩

/-- C7 (counterexample): on the same nested-close input the `src/app2.py`
copy of `extract_json_from_response` does not scan line by line at all —
no strategy succeeds and it returns the terminal failure mapping, even
though its line-accumulation scan, had it existed, would have found the
outer object. -/
theorem line_scan_missing_in_app2 :
    extract_json_from_responseB (("hmm\n\x7b\"p\":\n\x7b\"q\": 2\x7d\n\x7d\nbye \x7d !").toList) =
      .ok (failObjB (("hmm\n\x7b\"p\":\n\x7b\"q\": 2\x7d\n\x7d\nbye \x7d !").toList)) ∧
    failShape (failObjB (("hmm\n\x7b\"p\":\n\x7b\"q\": 2\x7d\n\x7d\nbye \x7d !").toList)) = true ∧
    scanLines (splitNl (("hmm\n\x7b\"p\":\n\x7b\"q\": 2\x7d\n\x7d\nbye \x7d !").toList)) [] false =
      some (.jobj [(strPts ("p"), .jobj [(strPts ("q"), .jnum ['2'])])]) :=
  ⟨rfl, rfl, rfl⟩

/-- Post-processing lemma: when the `src/app.py` extractor returns its
terminal failure dictionary, `generate_schema` overwrites `raw_response`
with the first 1000 characters of the unstripped response. -/
theorem genA_fail (s : PyStr)
    (h : extract_json_from_responseA s = .ok (failObjA (pyStrip s))) :
    generate_schemaA s =
      .jobj [(strPts ("error"),
              .jstr (strPts ("Failed to extract valid JSON from response"))),
             (strPts ("raw_response"), .jstr ((s.take 1000).map Char.toNat))] := by
  unfold generate_schemaA
  rw [h]
  rfl

/-- Post-processing lemma for the `src/app2.py` copy of `generate_schema`. -/
theorem genB_fail (s : PyStr)
    (h : extract_json_from_responseB s = .ok (failObjB (pyStrip s))) :
    generate_schemaB s =
      .jobj [(strPts ("error"),
              .jstr (strPts ("Failed to extract valid JSON from response"))),
             (strPts ("raw_response"), .jstr ((s.take 1000).map Char.toNat))] := by
  unfold generate_schemaB
  rw [h]
  rfl

/-- C4 (amended): on terminal extraction failure the `src/app.py`
extractor returns the stripped text unchanged when it has at most 500
characters and a 500-character prefix plus the three-character marker
(length exactly 503) when longer; the `src/app2.py` extractor appends the
marker unconditionally, so its `raw_response` always has length
`min len 500 + 3`; and on the generation-error path both files overwrite
`raw_response` with the first 1000 characters of the unstripped response,
with no marker. -/
theorem terminal_raw_response (s : PyStr) :
    (stratsA (pyStrip s) = none →
       extract_json_from_responseA s = .ok (failObjA (pyStrip s)) ∧
       ((pyStrip s).length ≤ 500 → rawRespA (pyStrip s) = pyStrip s) ∧
       (500 < (pyStrip s).length → (rawRespA (pyStrip s)).length = 503)) ∧
    (strats14 (pyStrip s) = none →
       extract_json_from_responseB s = .ok (failObjB (pyStrip s)) ∧
       (rawRespB (pyStrip s)).length = min 500 (pyStrip s).length + 3) ∧
    (stratsA (pyStrip s) = none →
       (match generate_schemaA s with
        | .jobj kvs => lookupObj kvs (strPts ("raw_response"))
        | _ => none) = some (.jstr ((s.take 1000).map Char.toNat))) ∧
    (strats14 (pyStrip s) = none →
       (match generate_schemaB s with
        | .jobj kvs => lookupObj kvs (strPts ("raw_response"))
        | _ => none) = some (.jstr ((s.take 1000).map Char.toNat))) := by
  refine ⟨?_, ?_, ?_, ?_⟩
  · intro h
    refine ⟨by rw [extractA_eq, h]; rfl, ?_, ?_⟩
    · intro hlen
      unfold rawRespA
      rw [if_neg (by omega)]
    · intro hlen
      unfold rawRespA
      rw [if_pos hlen]
      simp [List.length_take]
      omega
  · intro h
    refine ⟨by rw [extractB_eq, h]; rfl, ?_⟩
    unfold rawRespB
    simp [List.length_take]
  · intro h
    have hA : extract_json_from_responseA s = .ok (failObjA (pyStrip s)) := by
      rw [extractA_eq, h]; rfl
    rw [genA_fail s hA]
    rfl
  · intro h
    have hB : extract_json_from_responseB s = .ok (failObjB (pyStrip s)) := by
      rw [extractB_eq, h]; rfl
    rw [genB_fail s hB]
    rfl

/-- C4 (witness): the terminal behaviour at a concrete prose response with
no recoverable JSON, short enough that the `src/app.py` copy keeps it
intact while the `src/app2.py` copy still appends the marker. -/
theorem terminal_raw_response_witness :
    extract_json_from_responseA (("I cannot help with that.").toList) =
      .ok (failObjA (("I cannot help with that.").toList)) ∧
    rawRespA (("I cannot help with that.").toList) = ("I cannot help with that.").toList ∧
    extract_json_from_responseB (("I cannot help with that.").toList) =
      .ok (failObjB (("I cannot help with that.").toList)) ∧
    (match generate_schemaA (("I cannot help with that.").toList) with
     | .jobj kvs => lookupObj kvs (strPts ("raw_response"))
     | _ => none) =
      some (.jstr (((("I cannot help with that.").toList).take 1000).map Char.toNat)) ∧
    (match generate_schemaB (("I cannot help with that.").toList) with
     | .jobj kvs => lookupObj kvs (strPts ("raw_response"))
     | _ => none) =
      some (.jstr (((("I cannot help with that.").toList).take 1000).map Char.toNat)) :=
  ⟨((terminal_raw_response (("I cannot help with that.").toList)).1 rfl).1,
   ((terminal_raw_response (("I cannot help with that.").toList)).1 rfl).2.1 (by decide),
   ((terminal_raw_response (("I cannot help with that.").toList)).2.1 rfl).1,
   (terminal_raw_response (("I cannot help with that.").toList)).2.2.1 rfl,
   (terminal_raw_response (("I cannot help with that.").toList)).2.2.2 rfl⟩

/-- C4 (counterexample): the `src/app2.py` extractor appends the
truncation marker even to an input far below the cap — on input `x` the
returned `raw_response` is `x...` rather than the original text. -/
theorem truncation_marker_always_in_app2 :
    extract_json_from_responseB (("x").toList) = .ok (failObjB (("x").toList)) ∧
    rawRespB (("x").toList) = ("x...").toList ∧
    (("x").toList : List Char).length ≤ 500 ∧
    rawRespB (("x").toList) ≠ ("x").toList :=
  ⟨rfl, rfl, by decide, by decide⟩

/-- C8 (amended): the two copies of `extract_json_from_response` agree on
every input on which one of the shared strategies 1-4 succeeds; they
differ on terminal failure (the `src/app2.py` copy appends the truncation
marker unconditionally) and on inputs only recoverable by the
line-accumulation stage that exists only in `src/app.py`. -/
theorem extractors_agree_on_shared_strategies (s : PyStr) (v : JVal)
    (h : strats14 (pyStrip s) = some v) :
    extract_json_from_responseA s = .ok v ∧
    extract_json_from_responseB s = .ok v ∧
    extract_json_from_responseA s = extract_json_from_responseB s := by
  have hA : stratsA (pyStrip s) = some v := by unfold stratsA; rw [h]
  refine ⟨?_, ?_, ?_⟩
  · rw [extractA_eq, hA]; rfl
  · rw [extractB_eq, h]; rfl
  · rw [extractA_eq, hA, extractB_eq, h]; rfl

/-- C8 (witness): agreement at a concrete directly-parseable response. -/
theorem extractors_agree_witness :
    extract_json_from_responseA (("\x7b\"k\":[true,null]\x7d").toList) =
      .ok (.jobj [(strPts ("k"), .jarr [.jbool true, .jnull])]) ∧
    extract_json_from_responseB (("\x7b\"k\":[true,null]\x7d").toList) =
      .ok (.jobj [(strPts ("k"), .jarr [.jbool true, .jnull])]) ∧
    extract_json_from_responseA (("\x7b\"k\":[true,null]\x7d").toList) =
      extract_json_from_responseB (("\x7b\"k\":[true,null]\x7d").toList) :=
  extractors_agree_on_shared_strategies (("\x7b\"k\":[true,null]\x7d").toList)
    (.jobj [(strPts ("k"), .jarr [.jbool true, .jnull])]) rfl

/-- C8 (counterexample): the two copies are not one and the same function;
on the terminal-failure input `hello` they return different
`raw_response` payloads. -/
theorem extractors_differ :
    extract_json_from_responseA (("hello").toList) = .ok (failObjA (("hello").toList)) ∧
    extract_json_from_responseB (("hello").toList) = .ok (failObjB (("hello").toList)) ∧
    rawRespOf (extract_json_from_responseA (("hello").toList)) = some (strPts ("hello")) ∧
    rawRespOf (extract_json_from_responseB (("hello").toList)) = some (strPts ("hello...")) ∧
    extract_json_from_responseA (("hello").toList) ≠
      extract_json_from_responseB (("hello").toList) := by
  refine ⟨rfl, rfl, rfl, rfl, ?_⟩
  intro hEq
  have hP : rawRespOf (extract_json_from_responseA (("hello").toList)) =
      rawRespOf (extract_json_from_responseB (("hello").toList)) := congrArg rawRespOf hEq
  have h1 : rawRespOf (extract_json_from_responseA (("hello").toList)) =
      some (strPts ("hello")) := rfl
  have h2 : rawRespOf (extract_json_from_responseB (("hello").toList)) =
      some (strPts ("hello...")) := rfl
  rw [h1, h2] at hP
  exact absurd hP (by decide)

/-- C9 (amended): after upper-casing and hyphen-to-colon substitution the
tokens `1:1` and `ONE_TO_ONE` resolve to the same connector, and every
token whose normal form is not one of the six recognised literals — such
as `one-to-one`, whose normal form is `ONE:TO:ONE`, or `weird` — resolves
to the generic connector, without raising. -/
theorem relationship_type_normalization :
    connectorFor (normalizeRelType (.jstr (strPts ("1:1")))) =
      connectorFor (normalizeRelType (.jstr (strPts ("ONE_TO_ONE")))) ∧
    normalizeRelType (.jstr (strPts ("one-to-one"))) = ("ONE:TO:ONE").toList ∧
    (∀ t : List Nat, recognizedRelType (normalizeRelType (.jstr t)) = false →
       connectorFor (normalizeRelType (.jstr t)) = ("--").toList) := by
  refine ⟨rfl, rfl, ?_⟩
  intro t h
  have c1 : ¬(normalizeRelType (.jstr t) = ("1:1").toList ∨
      normalizeRelType (.jstr t) = ("ONE_TO_ONE").toList) := by
    intro hc; cases hc <;> simp_all [recognizedRelType]
  have c2 : ¬(normalizeRelType (.jstr t) = ("1:N").toList ∨
      normalizeRelType (.jstr t) = ("ONE_TO_MANY").toList) := by
    intro hc; cases hc <;> simp_all [recognizedRelType]
  have c3 : ¬(normalizeRelType (.jstr t) = ("M:N").toList ∨
      normalizeRelType (.jstr t) = ("MANY_TO_MANY").toList) := by
    intro hc; cases hc <;> simp_all [recognizedRelType]
  unfold connectorFor
  rw [if_neg c1, if_neg c2, if_neg c3]

/-- C9 (witness): the generic-connector case at the unrecognised token
`weird`. -/
theorem relationship_type_normalization_witness :
    recognizedRelType (normalizeRelType (.jstr (strPts ("weird")))) = false ∧
    connectorFor (normalizeRelType (.jstr (strPts ("weird")))) = ("--").toList :=
  ⟨rfl, relationship_type_normalization.2.2 (strPts ("weird")) rfl⟩

/-- C9 (counterexample): `one-to-one` does not resolve to the same
connector as `1:1` and `ONE_TO_ONE`: its normal form `ONE:TO:ONE` is not a
recognised token, so it falls to the generic connector. -/
theorem one_to_one_not_same_connector :
    connectorFor (normalizeRelType (.jstr (strPts ("1:1")))) = ("||--||").toList ∧
    connectorFor (normalizeRelType (.jstr (strPts ("ONE_TO_ONE")))) = ("||--||").toList ∧
    connectorFor (normalizeRelType (.jstr (strPts ("one-to-one")))) = ("--").toList ∧
    connectorFor (normalizeRelType (.jstr (strPts ("one-to-one")))) ≠
      connectorFor (normalizeRelType (.jstr (strPts ("1:1")))) :=
  ⟨rfl, rfl, rfl, by decide⟩

/-- C10 (amended): the `src/app2.py` diagram builder never raises on any
dictionary schema (missing keys fall back to defaults and its body is
wrapped in a catch-all); the `src/app.py` builder treats missing
`tables`/`collections` as empty and renders an entity that has a `name`
but no `fields`/`relationships`, but it is not total on entities missing
directly-subscripted keys. -/
theorem diagram_builders_on_missing_keys :
    (∀ kvs, ∃ out, create_mermaid_diagram (.jobj kvs) = .ok out) ∧
    (∀ kvs, lookupObj kvs (strPts ("error")) = none →
       lookupObj kvs (strPts ("tables")) = none →
       lookupObj kvs (strPts ("collections")) = none →
       create_er_diagram (.jobj kvs) = .ok emptyDigraph) ∧
    create_er_diagram (.jobj [(strPts ("schema_type"), .jstr (strPts ("relational"))),
        (strPts ("tables"), .jarr [.jobj [(strPts ("name"), .jstr (strPts ("t")))]])]) =
      .ok ⟨[(.jstr (strPts ("t")), ['t', '\n'])], []⟩ := by
  refine ⟨?_, ?_, rfl⟩
  · intro kvs
    unfold create_mermaid_diagram
    cases hT : pyTruthy (.jobj kvs) with
    | false => exact ⟨invalidSchemaDiagram, by simp⟩
    | true =>
      simp only [Bool.not_true, Bool.false_eq_true, if_false, pyGet]
      cases hE : pyTruthy ((lookupObj kvs (strPts ("error"))).getD .jnull) with
      | true => exact ⟨invalidSchemaDiagram, by simp⟩
      | false =>
        cases hM : mermaidBody (.jobj kvs) with
        | ok d => exact ⟨d, by simp⟩
        | error e => exact ⟨failedDiagram e, by simp⟩
  · intro kvs h1 h2 h3
    unfold create_er_diagram
    simp only [pyGet, h1, Option.getD_none]
    have hN : pyTruthy JVal.jnull = false := rfl
    rw [hN]
    simp only [Bool.false_eq_true, if_false]
    by_cases hc : (pyStrOf ((lookupObj kvs (strPts ("schema_type"))).getD JVal.jnull) =
        ("relational").toList ∧
        isJStr ((lookupObj kvs (strPts ("schema_type"))).getD JVal.jnull) = true)
    · rw [if_pos hc, h2]
      rfl
    · rw [if_neg hc, h3]
      rfl

/-- C10 (witness): the empty diagram on a schema dictionary that lacks
`tables` and `collections` entirely. -/
theorem diagram_builders_on_missing_keys_witness :
    create_er_diagram (.jobj [(strPts ("schema_type"), .jstr (strPts ("relational")))]) =
      .ok emptyDigraph :=
  diagram_builders_on_missing_keys.2.1
    [(strPts ("schema_type"), .jstr (strPts ("relational")))] rfl rfl rfl

/-- C10 (counterexample): the `src/app.py` builder raises `KeyError` on a
successfully extracted schema without an `error` key whose single entity
lacks the `name` key. -/
theorem er_diagram_raises_on_missing_name :
    lookupObj [(strPts ("schema_type"), JVal.jstr (strPts ("relational"))),
        (strPts ("tables"), JVal.jarr [JVal.jobj []])] (strPts ("error")) = none ∧
    create_er_diagram (.jobj [(strPts ("schema_type"), .jstr (strPts ("relational"))),
        (strPts ("tables"), .jarr [.jobj []])]) = .error .keyError :=
  ⟨rfl, rfl⟩
